import Mathlib

/-!
Verification of the r3f-grass procedural grass pipeline.

This file gives a shallow embedding, over the rational numbers, of the
numeric core of the repository:

* `src/components/grass/utils.ts` — seeded jittered grid layout
  (`createGrassGeometry`) and the position texture (`createPositionTexture`);
* the GLSL compute pass embedded in `src/components/Grass.tsx`
  (hash functions, the Voronoi clump locator `getClumpInfo`, clump and blade
  parameter synthesis, presence, base facing angle);
* the blade deformer `src/components/grass/shaders/grassVertex.glsl`;
* the TSL compute variant (`createGrassCompute`) and the early prototype
  vertex shader that carries the frame-construction fallback.

GPU floating point is modelled by `ℚ`; the transcendental / intrinsic
functions the shaders call (`sin`, `cos`, `atan`, `sqrt`, `inversesqrt`,
`pow`, and the external `fbm2` noise) are not rational, so they are passed
in as an explicit parameter record `GlslPrims`.  Every statement below is
proved for an arbitrary such record (or refuted by a concrete one), so the
results depend only on the structure of the code, not on a particular
model of the intrinsics.  GLSL division by zero is modelled by rational
division, which is total with `x / 0 = 0`.
-/

/-- Abstract model of the numeric primitives used by the shaders and by
`Math.sin` on the TypeScript side.  `fbm2f v t` models the external
`fbm2(vec2, float)` noise from the `r3f-gist` package. -/
structure GlslPrims where
  sinf : ℚ → ℚ
  cosf : ℚ → ℚ
  atan2f : ℚ → ℚ → ℚ
  sqrtf : ℚ → ℚ
  invsqrtf : ℚ → ℚ
  powf : ℚ → ℚ → ℚ
  fbm2f : ℚ → ℚ → ℚ → ℚ

/-- GLSL `fract` / the TypeScript `x - Math.floor(x)` pattern. -/
def glslFract (q : ℚ) : ℚ := q - ⌊q⌋

theorem glslFract_eq_fract (q : ℚ) : glslFract q = Int.fract q := rfl

theorem glslFract_nonneg (q : ℚ) : 0 ≤ glslFract q := by
  rw [glslFract_eq_fract]; exact Int.fract_nonneg q

theorem glslFract_lt_one (q : ℚ) : glslFract q < 1 := by
  rw [glslFract_eq_fract]; exact Int.fract_lt_one q

/-- GLSL `clamp(x, lo, hi) = min(max(x, lo), hi)`. -/
def clampQ (x lo hi : ℚ) : ℚ := min (max x lo) hi

/-- GLSL `mix(x, y, a) = x * (1 - a) + y * a`. -/
def mixQ (x y a : ℚ) : ℚ := x * (1 - a) + y * a

/-- GLSL `smoothstep(e0, e1, x)`. -/
def smoothstepQ (e0 e1 x : ℚ) : ℚ :=
  let τ := clampQ ((x - e0) / (e1 - e0)) 0 1
  τ * τ * (3 - 2 * τ)

/-- A GLSL `vec2` over `ℚ`. -/
structure V2 where
  x : ℚ
  y : ℚ
deriving DecidableEq, Repr

instance : Add V2 := ⟨fun a b => ⟨a.x + b.x, a.y + b.y⟩⟩

instance : Sub V2 := ⟨fun a b => ⟨a.x - b.x, a.y - b.y⟩⟩

instance : SMul ℚ V2 := ⟨fun c v => ⟨c * v.x, c * v.y⟩⟩

/-- Componentwise `vec2 / float`. -/
def V2.divScalar (v : V2) (c : ℚ) : V2 := ⟨v.x / c, v.y / c⟩

/-- GLSL `dot` for `vec2`. -/
def V2.dot (a b : V2) : ℚ := a.x * b.x + a.y * b.y

/-- A GLSL `vec3` over `ℚ`. -/
structure V3 where
  x : ℚ
  y : ℚ
  z : ℚ
deriving DecidableEq, Repr

instance : Add V3 := ⟨fun a b => ⟨a.x + b.x, a.y + b.y, a.z + b.z⟩⟩

instance : Sub V3 := ⟨fun a b => ⟨a.x - b.x, a.y - b.y, a.z - b.z⟩⟩

instance : SMul ℚ V3 := ⟨fun c v => ⟨c * v.x, c * v.y, c * v.z⟩⟩

instance : Neg V3 := ⟨fun v => ⟨-v.x, -v.y, -v.z⟩⟩

/-- GLSL `dot` for `vec3`. -/
def V3.dot (a b : V3) : ℚ := a.x * b.x + a.y * b.y + a.z * b.z

/-- GLSL `cross`. -/
def cross3 (a b : V3) : V3 :=
  ⟨a.y * b.z - a.z * b.y, a.z * b.x - a.x * b.z, a.x * b.y - a.y * b.x⟩

/-- A GLSL `vec4` over `ℚ`. -/
structure V4 where
  x : ℚ
  y : ℚ
  z : ℚ
  w : ℚ
deriving DecidableEq, Repr

/-- GLSL `normalize(v) = v / sqrt(dot(v, v))`, with the abstract square
root.  On a zero vector this returns the zero vector (the GLSL behaviour is
undefined; the code under verification performs no guard). -/
def vnormalize (P : GlslPrims) (v : V3) : V3 := (1 / P.sqrtf (V3.dot v v)) • v

@[simp] theorem zero_smul_v3 (v : V3) : (0 : ℚ) • v = (⟨0, 0, 0⟩ : V3) := by
  show V3.mk _ _ _ = _
  simp

@[simp] theorem add_zero_v3 (v : V3) : v + (⟨0, 0, 0⟩ : V3) = v := by
  show V3.mk _ _ _ = _
  simp

-- ===========================================================================
-- Constants (src/components/grass/constants.ts)
-- ===========================================================================

def GRID_SIZE : ℕ := 256

def GRASS_BLADES : ℕ := GRID_SIZE * GRID_SIZE

def PATCH_SIZE : ℚ := 8

-- ===========================================================================
-- utils.ts: seeded jitter, instance layout, position texture
-- ===========================================================================

/-- `seededRandom` from `utils.ts`:
`const x = Math.sin(seed) * 10000; return x - Math.floor(x);`. -/
def seededRandom (P : GlslPrims) (seed : ℚ) : ℚ :=
  let x := P.sinf seed * 10000
  x - ⌊x⌋

/-- The per-cell seed `(x * 7919 + z * 7919) * 0.0001` shared by
`createGrassGeometry` and `createPositionTexture`. -/
def gridSeed (x z : ℕ) : ℚ := ((x : ℚ) * 7919 + (z : ℚ) * 7919) * 0.0001

/-- The jitter pair `(jitterX, jitterZ)` computed identically in
`createGrassGeometry` (utils.ts lines 45–47) and `createPositionTexture`
(lines 76–78). -/
def gridJitter (P : GlslPrims) (x z : ℕ) : ℚ × ℚ :=
  ((seededRandom P (gridSeed x z) - 0.5) * 0.2,
   (seededRandom P (gridSeed x z + 1) - 0.5) * 0.2)

/-- One iteration of the `createGrassGeometry` placement loop: the
`instanceOffset` triple `(px, 0, pz)` written for grid cell `(x, z)`. -/
def geomBody (P : GlslPrims) (x z : ℕ) : V3 :=
  let fx := (x : ℚ) / (GRID_SIZE : ℚ) - 0.5
  let fz := (z : ℚ) / (GRID_SIZE : ℚ) - 0.5
  ⟨fx * PATCH_SIZE + (gridJitter P x z).1, 0, fz * PATCH_SIZE + (gridJitter P x z).2⟩

/-- One iteration of the `createPositionTexture` loop: the RGBA texel
`(px, 0, pz, 0)` written for grid cell `(x, z)`. -/
def texBody (P : GlslPrims) (x z : ℕ) : V4 :=
  let fx := (x : ℚ) / (GRID_SIZE : ℚ) - 0.5
  let fz := (z : ℚ) / (GRID_SIZE : ℚ) - 0.5
  ⟨fx * PATCH_SIZE + (gridJitter P x z).1, 0, fz * PATCH_SIZE + (gridJitter P x z).2, 0⟩

/-- Row-major double loop `for x in [0,m) { for z in [0,n) { emit (f x z) } }`
as a flat list, in emission order. -/
def rowMajor {α : Type} (m n : ℕ) (f : ℕ → ℕ → α) : List α :=
  (List.range m).flatMap (fun x => (List.range n).map (f x))

theorem rowMajor_length {α : Type} (m n : ℕ) (f : ℕ → ℕ → α) :
    (rowMajor m n f).length = m * n := by
  induction m with
  | zero => simp [rowMajor]
  | succ m ih =>
      rw [rowMajor, List.range_succ, List.flatMap_append]
      simpa [rowMajor, Nat.succ_mul] using congrArg (· + n) ih

theorem rowMajor_get? {α : Type} (n : ℕ) (f : ℕ → ℕ → α) (hn : 0 < n) :
    ∀ (m i : ℕ), i < m * n →
      (rowMajor m n f).get? i = some (f (i / n) (i % n)) := by
  intro m
  induction m with
  | zero => intro i hi; omega
  | succ m ih =>
      intro i hi
      rw [rowMajor, List.range_succ, List.flatMap_append]
      rcases lt_or_le i (m * n) with hlt | hge
      · rw [List.get?_append]
        · exact ih i hlt
        · rw [show ((List.range m).flatMap fun x => (List.range n).map (f x)) =
              rowMajor m n f from rfl, rowMajor_length]
          exact hlt
      · have hlen : ((List.range m).flatMap fun x => (List.range n).map (f x)).length = m * n := by
          rw [show ((List.range m).flatMap fun x => (List.range n).map (f x)) =
              rowMajor m n f from rfl, rowMajor_length]
        rw [List.get?_append_right (by omega)]
        have hr : i - m * n < n := by
          have : i < m * n + n := by simpa [Nat.succ_mul] using hi
          omega
        have h1 : i = (i - m * n) + m * n := by omega
        have hdiv : i / n = m := by
          conv_lhs => rw [h1]
          rw [Nat.add_mul_div_right _ _ hn, Nat.div_eq_of_lt hr, Nat.zero_add]
        have hmod : i % n = i - m * n := by
          conv_lhs => rw [h1]
          rw [Nat.add_mul_mod_self_right, Nat.mod_eq_of_lt hr]
        simp only [hlen, List.flatMap_nil]
        rw [List.flatMap_cons]
        simp only [List.flatMap_nil, List.append_nil]
        rw [List.get?_map, List.get?_range hr, hdiv, hmod]
        rfl

/-- The `instanceOffset` attribute of `createGrassGeometry`: one `V3`
per instance, written in x-outer / z-inner order (utils.ts lines 38–58).
The loop's `if (id >= GRASS_BLADES) break` guard never fires (see
`instanceId_lt_GRASS_BLADES`), so it is omitted. -/
def createGrassGeometry_offsets (P : GlslPrims) : List V3 :=
  rowMajor GRID_SIZE GRID_SIZE (geomBody P)

/-- The `instanceId` attribute of `createGrassGeometry`:
`id = x * GRID_SIZE + z`, in the same iteration order as the offsets. -/
def createGrassGeometry_instanceIds : List ℕ :=
  rowMajor GRID_SIZE GRID_SIZE (fun x z => x * GRID_SIZE + z)

/-- The texel sequence of `createPositionTexture` (utils.ts lines 66–93),
one RGBA texel per loop iteration, in write order.  As a
`GRID_SIZE × GRID_SIZE` `DataTexture`, the texel at column `c`, row `r`
is entry `r * GRID_SIZE + c` of this list. -/
def createPositionTexture_data (P : GlslPrims) : List V4 :=
  rowMajor GRID_SIZE GRID_SIZE (texBody P)

/-- The `id >= GRASS_BLADES` break guard in `createGrassGeometry` is dead
code: every id produced by the loop is below `GRASS_BLADES`. -/
theorem instanceId_lt_GRASS_BLADES {x z : ℕ} (hx : x < GRID_SIZE) (hz : z < GRID_SIZE) :
    x * GRID_SIZE + z < GRASS_BLADES := by
  have : x * GRID_SIZE + z < (x + 1) * GRID_SIZE := by
    simpa [Nat.succ_mul] using Nat.add_lt_add_left hz (x * GRID_SIZE)
  calc x * GRID_SIZE + z < (x + 1) * GRID_SIZE := this
    _ ≤ GRID_SIZE * GRID_SIZE := Nat.mul_le_mul_right _ hx
    _ = GRASS_BLADES := rfl

/-- The texel addressing computed by the vertex shader
(`grassVertex.glsl` lines 72–79): column `id mod GRID_SIZE`,
row `floor(id / GRID_SIZE)` (the float arithmetic is exact for integer
ids below `GRID_SIZE²`). -/
def texelOfId (i : ℕ) : ℕ × ℕ := (i % GRID_SIZE, i / GRID_SIZE)

/-- Position of texel `(column, row)` in the row-major `DataTexture`
backing store. -/
def dataIndexOfTexel (cr : ℕ × ℕ) : ℕ := cr.2 * GRID_SIZE + cr.1

-- ===========================================================================
-- GLSL compute pass in Grass.tsx (grassComputeShader)
-- ===========================================================================

/-- `hash11(x) = fract(sin(x * 37.0) * 43758.5453123)` (compute shader and
vertex shader). -/
def hash11 (P : GlslPrims) (q : ℚ) : ℚ :=
  glslFract (P.sinf (q * 37) * 43758.5453123)

/-- `hash21(p)` from the compute shader: two decorrelated `hash11` calls. -/
def hash21 (P : GlslPrims) (p : V2) : V2 :=
  ⟨hash11 P (V2.dot p ⟨127.1, 311.7⟩), hash11 P (V2.dot p ⟨269.5, 183.3⟩)⟩

/-- `hash2(p) = fract(sin(vec2(dot(p,...), dot(p,...))) * 43758.5453)`:
the Voronoi seed hash of the compute shader. -/
def hash2 (P : GlslPrims) (p : V2) : V2 :=
  ⟨glslFract (P.sinf (V2.dot p ⟨127.1, 311.7⟩) * 43758.5453),
   glslFract (P.sinf (V2.dot p ⟨269.5, 183.3⟩) * 43758.5453)⟩

theorem hash2_mem_Ico (P : GlslPrims) (p : V2) :
    (0 ≤ (hash2 P p).x ∧ (hash2 P p).x < 1) ∧
    (0 ≤ (hash2 P p).y ∧ (hash2 P p).y < 1) :=
  ⟨⟨glslFract_nonneg _, glslFract_lt_one _⟩, ⟨glslFract_nonneg _, glslFract_lt_one _⟩⟩

/-- The nine neighbour offsets visited by the `getClumpInfo` double loop,
in source order (`j` outer from −1 to 1, `i` inner from −1 to 1). -/
def clumpOffsets : List V2 :=
  [⟨-1, -1⟩, ⟨0, -1⟩, ⟨1, -1⟩, ⟨-1, 0⟩, ⟨0, 0⟩, ⟨1, 0⟩, ⟨-1, 1⟩, ⟨0, 1⟩, ⟨1, 1⟩]

/-- The strict-improvement selection fold at the heart of `getClumpInfo`:
keeps the first candidate attaining the minimum of `g`. -/
def bestSeed {α : Type} (g : α → ℚ) (acc : ℚ × α) (l : List α) : ℚ × α :=
  l.foldl (fun acc c => if g c < acc.1 then (g c, c) else acc) acc

theorem bestSeed_spec {α : Type} (g : α → ℚ) :
    ∀ (l : List α) (acc : ℚ × α),
      (bestSeed g acc l = acc ∧ ∀ x ∈ l, acc.1 ≤ g x) ∨
      (∃ k : ℕ, ∃ hk : k < l.length,
        bestSeed g acc l = (g (l.get ⟨k, hk⟩), l.get ⟨k, hk⟩) ∧
        g (l.get ⟨k, hk⟩) < acc.1 ∧
        (∀ x ∈ l, g (l.get ⟨k, hk⟩) ≤ g x) ∧
        (∀ m : ℕ, ∀ hm : m < l.length, m < k →
          g (l.get ⟨k, hk⟩) < g (l.get ⟨m, hm⟩))) := by
  intro l
  induction l with
  | nil => intro acc; left; exact ⟨rfl, by simp⟩
  | cons c rest ih =>
      intro acc
      rw [show bestSeed g acc (c :: rest) =
          bestSeed g (if g c < acc.1 then (g c, c) else acc) rest from rfl]
      rcases lt_or_le (g c) acc.1 with hc | hc
      · rw [if_pos hc]
        rcases ih (g c, c) with ⟨heq, hall⟩ | ⟨k, hk, heq, hlt, hall, hfirst⟩
        · right
          refine ⟨0, by simp, by simpa using heq, by simpa using hc, ?_, ?_⟩
          · intro x hx
            rcases List.mem_cons.mp hx with h | h
            · simp [h]
            · simpa using hall x h
          · intro m hm hmk; omega
        · right
          refine ⟨k + 1, by simpa using hk, by simpa using heq, ?_, ?_, ?_⟩
          · exact lt_trans hlt hc
          · intro x hx
            rcases List.mem_cons.mp hx with h | h
            · simpa [h] using le_of_lt hlt
            · simpa using hall x h
          · intro m hm hmk
            rcases Nat.eq_zero_or_pos m with rfl | hpos
            · simpa using hlt
            · obtain ⟨m', rfl⟩ := Nat.exists_eq_succ_of_ne_zero (Nat.pos_iff_ne_zero.mp hpos)
              simpa using hfirst m' (by simpa using hm) (by omega)
      · rw [if_neg (not_lt.mpr hc)]
        rcases ih acc with ⟨heq, hall⟩ | ⟨k, hk, heq, hlt, hall, hfirst⟩
        · left
          refine ⟨heq, ?_⟩
          intro x hx
          rcases List.mem_cons.mp hx with h | h
          · simpa [h] using hc
          · exact hall x h
        · right
          refine ⟨k + 1, by simpa using hk, by simpa using heq, hlt, ?_, ?_⟩
          · intro x hx
            rcases List.mem_cons.mp hx with h | h
            · subst h; exact le_trans (le_of_lt hlt) hc
            · simpa using hall x h
          · intro m hm hmk
            rcases Nat.eq_zero_or_pos m with rfl | hpos
            · simpa using lt_of_lt_of_le hlt hc
            · obtain ⟨m', rfl⟩ := Nat.exists_eq_succ_of_ne_zero (Nat.pos_iff_ne_zero.mp hpos)
              simpa using hfirst m' (by simpa using hm) (by omega)

/-- The position in cell space: `cell = worldXZ / clumpSize`. -/
def clumpCell (cs : ℚ) (w : V2) : V2 := w.divScalar cs

/-- `baseCell = floor(cell)`: the cell of side `clumpSize` owning the
position. -/
def clumpBaseCell (cs : ℚ) (w : V2) : V2 :=
  ⟨(⌊(clumpCell cs w).x⌋ : ℤ), (⌊(clumpCell cs w).y⌋ : ℤ)⟩

/-- Squared cell-space distance from the position to the seed owned by
neighbour cell `nc`: `dot(diff, diff)` with
`diff = cell - (neighborCell + hash2(neighborCell))`. -/
def seedD2 (P : GlslPrims) (cs : ℚ) (w : V2) (nc : V2) : ℚ :=
  let diff := clumpCell cs w - (nc + hash2 P nc)
  V2.dot diff diff

/-- The `getClumpInfo` neighbour scan (Grass.tsx lines 59–75): the strict
`d2 < minDist` fold over the 3×3 neighbourhood starting from
`(1e9, vec2(0))`, returning `(minDist, bestCellId)` before the final
square root. -/
def getClumpInfoAux (P : GlslPrims) (cs : ℚ) (w : V2) : ℚ × V2 :=
  bestSeed (seedD2 P cs w) (1000000000, ⟨0, 0⟩)
    (clumpOffsets.map (fun o => clumpBaseCell cs w + o))

/-- `getClumpInfo` (Grass.tsx lines 55–79): returns
`(distToCenter, bestCellId)` with `distToCenter = sqrt(minDist) * clumpSize`. -/
def getClumpInfo (P : GlslPrims) (cs : ℚ) (w : V2) : ℚ × V2 :=
  (P.sqrtf (getClumpInfoAux P cs w).1 * cs, (getClumpInfoAux P cs w).2)

/-- `getClumpParams` (Grass.tsx lines 81–91): clump-level base
height/width/bend and discrete type from two decorrelated hashes of the
cell id. -/
def getClumpParams (P : GlslPrims) (bladeHeight bladeWidth bendAmount : ℚ) (cellId : V2) : V4 :=
  let c1 := hash21 P ((11 : ℚ) • cellId)
  let c2 := hash21 P ((23 : ℚ) • cellId)
  ⟨bladeHeight * (0.8 + c1.x * 0.4),
   bladeWidth * (0.6 + c1.y * 0.8),
   bendAmount * (0.7 + c2.x * 0.5),
   (⌊c2.y * 3⌋ : ℤ)⟩

/-- `getGrassParams` (Grass.tsx lines 93–103): per-blade variation inside
the clump band, keyed by the blade's raw position. -/
def getGrassParams (P : GlslPrims) (seed : V2) (clumpParams : V4) : V4 :=
  let h1 := hash21 P ((13 : ℚ) • seed)
  let h2 := hash21 P ((29 : ℚ) • seed)
  ⟨clumpParams.x * (0.6 + h1.x * 0.6),
   clumpParams.y * (0.6 + h1.y * 0.6),
   clumpParams.z * (0.8 + h2.x * 0.4),
   clumpParams.w⟩

/-- The guarded direction normalization of Grass.tsx lines 119–121:
`toCenter = len > 1e-5 ? dir / len : vec2(1.0, 0.0)` with
`len = length(dir)`. -/
def safeDirNormalize (P : GlslPrims) (dir : V2) : V2 :=
  let len := P.sqrtf (V2.dot dir dir)
  if 0.00001 < len then ⟨dir.x / len, dir.y / len⟩ else ⟨1, 0⟩

/-- The presence falloff of Grass.tsx lines 123–127:
`1 - smoothstep(0.7, 1.0, clamp(dist / clumpRadius, 0, 1))`, with the
smoothstep written out as in the source. -/
def presenceOf (clumpRadius dist : ℚ) : ℚ :=
  let r := clampQ (dist / clumpRadius) 0 1
  let t := clampQ ((r - 0.7) / (1 - 0.7)) 0 1
  1 - t * t * (3 - 2 * t)

/-- Configuration uniforms of the compute pass. -/
structure ComputeCfg where
  bladeHeight : ℚ
  bladeWidth : ℚ
  bendAmount : ℚ
  clumpSize : ℚ
  clumpRadius : ℚ

/-- The whole compute-shader `main` (Grass.tsx lines 105–143) for one
texel, as a function of the fetched world position.  Returns
`(fragColor0, fragColor1) = ((height, width, bend, type),
(toCenter.x, toCenter.y, presence, baseAngle))`. -/
def computeMainRecord (P : GlslPrims) (cfg : ComputeCfg) (worldXZ : V2) : V4 × V4 :=
  let clumpInfo := getClumpInfo P cfg.clumpSize worldXZ
  let distToCenter := clumpInfo.1
  let cellId := clumpInfo.2
  let clumpSeed := hash2 P cellId
  let clumpCenterWorld := cfg.clumpSize • (cellId + clumpSeed)
  let dir := clumpCenterWorld - worldXZ
  let toCenter := safeDirNormalize P dir
  let presence := presenceOf cfg.clumpRadius distToCenter
  let clumpParams := getClumpParams P cfg.bladeHeight cfg.bladeWidth cfg.bendAmount cellId
  let bladeParams := getGrassParams P worldXZ clumpParams
  let clumpAngle := P.atan2f toCenter.y toCenter.x
  let perBladeHash := hash11 P (V2.dot worldXZ ⟨37, 17⟩)
  let randomOffset := (perBladeHash - 0.5) * 1.2
  let clumpYaw := (hash11 P (V2.dot cellId ⟨9.7, 3.1⟩) - 0.5) * 0.25
  let baseAngle := clumpAngle + randomOffset + clumpYaw
  (bladeParams, ⟨toCenter.x, toCenter.y, presence, baseAngle⟩)

/-- The world position fetched by the compute pass for flat texel index
`n`, i.e. the `.xz` of entry `n` of the position texture (zero if out of
range, which never happens for `n < GRASS_BLADES`). -/
def positionXZAt (P : GlslPrims) (n : ℕ) : V2 :=
  match (createPositionTexture_data P).get? n with
  | some v => ⟨v.x, v.z⟩
  | none => ⟨0, 0⟩

/-- The parameter-buffer record written at texel `n` by the offscreen
pass: the compute `main` applied to the position fetched at that texel. -/
def recordAtTexel (P : GlslPrims) (cfg : ComputeCfg) (n : ℕ) : V4 × V4 :=
  computeMainRecord P cfg (positionXZAt P n)

-- ===========================================================================
-- grassVertex.glsl: the blade deformer
-- ===========================================================================

/-- Quadratic Bézier `bezier2` from the vertex shader. -/
def bezier2 (p0 p1 p2 : V3) (t : ℚ) : V3 :=
  let u := 1 - t
  (u * u) • p0 + (2 * u * t) • p1 + (t * t) • p2

/-- `bezier2Tangent` from the vertex shader. -/
def bezier2Tangent (p0 p1 p2 : V3) (t : ℚ) : V3 :=
  (2 * (1 - t)) • (p1 - p0) + (2 * t) • (p2 - p1)

/-- Modelled from the spec: `rotate2D` comes from the external
`r3f-gist` utility include (not part of this repository); the spec's step
"rotate ... around the vertical axis by the resolved facing angle" is the
standard 2D rotation, expressed with the abstract sine and cosine. -/
def rotate2D (P : GlslPrims) (v : V2) (a : ℚ) : V2 :=
  ⟨P.cosf a * v.x - P.sinf a * v.y, P.sinf a * v.x + P.cosf a * v.y⟩

/-- `v.xz = rotate2D(v.xz, angle)` applied to a `vec3`. -/
def rotXZ (P : GlslPrims) (v : V3) (a : ℚ) : V3 :=
  let r := rotate2D P ⟨v.x, v.z⟩ a
  ⟨r.x, v.y, r.y⟩

/-- `sampleWind` (vertex shader lines 45–48):
`fbm2(worldXZ * uWindScale, uTime * uWindSpeed)`. -/
def sampleWind (P : GlslPrims) (scale speed time : ℚ) (worldXZ : V2) : ℚ :=
  P.fbm2f (worldXZ.x * scale) (worldXZ.y * scale) (time * speed)

/-- The type-dependent middle control point (vertex shader lines 112–119). -/
def baseP1 (bladeType height bend : ℚ) : V3 :=
  if bladeType < 0.5 then ⟨0, height * 0.9, bend * 0.7⟩
  else if bladeType < 1.5 then ⟨0, height * 0.85, bend * 0.8⟩
  else ⟨0, height * 0.8, bend * 1.0⟩

/-- Wind uniforms of the deformer. -/
structure WindUniforms where
  uTime : ℚ
  uWindSpeed : ℚ
  uWindStrength : ℚ
  uWindScale : ℚ
  uWindDir : V2

/-- Per-vertex / per-instance inputs of the deformer. -/
structure DeformIn where
  uvx : ℚ
  uvy : ℚ
  instanceOffset : V3
  cameraPosition : V3
  thicknessStrength : ℚ

/-- The per-instance texture fetch results consumed by the deformer
(addressing is `texelOfId`; the stored contents are `recordAtTexel`). -/
structure BladeTexData where
  toCenter : V2
  presence : ℚ
  baseAngle : ℚ
  height : ℚ
  width : ℚ
  bend : ℚ
  bladeType : ℚ

/-- The model transform applied by three.js (`modelMatrix`), abstracted:
`pt` is `(modelMatrix * vec4(p, 1)).xyz`, `dir` is
`(modelMatrix * vec4(v, 0)).xyz`. -/
structure ModelXf where
  pt : V3 → V3
  dir : V3 → V3

/-- Outputs of the deformer: `csm_Position` and all varyings, plus the
intermediates `spine`, `anglePre`, `tangentLocal`, `sideLocal` (the
pre-rotation frame of shader lines 137–143), exposed for analysis. -/
structure DeformOut where
  csmPosition : V3
  spine : V3
  anglePre : ℚ
  tangentLocal : V3
  sideLocal : V3
  vN : V3
  vTangent : V3
  vSide : V3
  vToCenter : V2
  vWorldPos : V3
  vTest : V3
  vUv : V2
  vHeight : ℚ
  vType : ℚ
  vPresence : ℚ

/-- The vertex shader `main` of `grassVertex.glsl` (lines 65–213), with
the texture fetch of step 2–3 supplied as `tex` (see `texelOfId` /
`recordAtTexel` for the addressing and contents). -/
def grassVertexMain (P : GlslPrims) (M : ModelXf) (W : WindUniforms)
    (inp : DeformIn) (tex : BladeTexData) : DeformOut :=
  let t := inp.uvy
  let s := (inp.uvx - 0.5) * 2
  let worldXZ : V2 := ⟨inp.instanceOffset.x, inp.instanceOffset.z⟩
  let toCenter := tex.toCenter
  let presence := tex.presence
  let baseAngle := tex.baseAngle
  let height := tex.height
  let width := tex.width
  let bend := tex.bend
  let bladeType := tex.bladeType
  let wind := sampleWind P W.uWindScale W.uWindSpeed W.uTime worldXZ
  let windS := (wind * 2 - 1) * W.uWindStrength
  let windAngle := P.atan2f W.uWindDir.y W.uWindDir.x
  let windFacing := (wind * 2 - 1) * 0.35 * W.uWindStrength
  let anglePre := mixQ baseAngle windAngle (0.25 * W.uWindStrength) + windFacing
  let facingXZ : V2 := ⟨P.cosf anglePre, P.sinf anglePre⟩
  let perpXZ : V2 := ⟨-facingXZ.y, facingXZ.x⟩
  let perpV3 : V3 := ⟨perpXZ.x, 0, perpXZ.y⟩
  let p0 : V3 := ⟨0, 0, 0⟩
  let p2base : V3 := ⟨0, height, 0⟩
  let tipPush := windS * height * 0.35
  let midPush := windS * height * 0.15
  let p1 := baseP1 bladeType height bend + midPush • perpV3
  let p2mid := p2base + tipPush • perpV3
  let phase := hash11 P (worldXZ.x * 12.3 + worldXZ.y * 78.9) * 6.28318
  let sway := P.sinf (W.uTime * (1.8 + wind * 1.2) + phase + t * 2.2)
  let swayAmt := W.uWindStrength * 0.02 * height * wind
  let p2 := p2mid + (sway * swayAmt) • perpV3
  let spine := bezier2 p0 p1 p2 t
  let tangent0 := vnormalize P (bezier2Tangent p0 p1 p2 t)
  let refAxis : V3 := ⟨0, 0, 1⟩
  let side0 := vnormalize P (cross3 refAxis tangent0)
  let normal0 := vnormalize P (cross3 side0 tangent0)
  let baseWidth : ℚ := 0.35
  let tipThin : ℚ := 0.9
  let widthFactor := (t + baseWidth) * P.powf (1 - t) tipThin
  let lpos0 := spine + (width * widthFactor * s * presence) • side0
  let tipWeight := smoothstepQ 0.1 1 t
  let lpos := lpos0 + (windS * height * 0.05 * tipWeight) • perpV3
  let angle := anglePre
  let lposR := rotXZ P lpos angle
  let tangentR := rotXZ P tangent0 angle
  let sideR := rotXZ P side0 angle
  let normalR := rotXZ P normal0 angle
  let tangent := vnormalize P tangentR
  let side := vnormalize P sideR
  let normal := vnormalize P normalR
  let posObj := lposR + inp.instanceOffset
  let posW := M.pt posObj
  let camDirW := vnormalize P (inp.cameraPosition - posW)
  let tangentW := vnormalize P (M.dir tangent)
  let sideW := vnormalize P (M.dir side)
  let normalW := vnormalize P (M.dir normal)
  let camDirLocal := vnormalize P
    ⟨V3.dot tangentW camDirW, V3.dot sideW camDirW, V3.dot normalW camDirW⟩
  let edgeMask0 := (inp.uvx - 0.5) * camDirLocal.y
  let wgt := P.powf |camDirLocal.y| 1.2
  let edgeMask := clampQ (edgeMask0 * wgt) 0 1
  let centerMask := clampQ (P.powf (1 - t) 0.5 * P.powf (t + 0.05) 0.33) 0 1
  let tilt := inp.thicknessStrength * edgeMask * centerMask
  let nXZ := vnormalize P ⟨normal.x, 0, normal.z⟩
  let posObjTilted := posObj + tilt • nXZ
  let posWTilted := M.pt posObjTilted
  { csmPosition := posObjTilted
    spine := spine
    anglePre := anglePre
    tangentLocal := tangent0
    sideLocal := side0
    vN := -normal
    vTangent := tangent
    vSide := side
    vToCenter := toCenter
    vWorldPos := posWTilted
    vTest := ⟨edgeMask, 0, 0⟩
    vUv := ⟨inp.uvx, inp.uvy⟩
    vHeight := t
    vType := bladeType
    vPresence := presence }

-- ===========================================================================
-- Variant sources: cubic deformer (part_004), prototype (part_006),
-- TSL compute (part_002)
-- ===========================================================================

/-- `safeNormalize` of the cubic-Bézier deformer variant:
`(m2 > 1e-6) ? v * inversesqrt(m2) : vec2(1.0, 0.0)`. -/
def safeNormalize (P : GlslPrims) (v : V2) : V2 :=
  let m2 := V2.dot v v
  if 0.000001 < m2 then ⟨v.x * P.invsqrtf m2, v.y * P.invsqrtf m2⟩ else ⟨1, 0⟩

/-- The prototype vertex shader's reference-axis selection (part_006
lines 52–57): start from `(1, 0, 0)` and fall back to `(0, 0, 1)` when
`abs(dot(tangent, ref)) > 0.95`. -/
def protoRefAxis (tangent : V3) : V3 :=
  if 0.95 < |V3.dot tangent ⟨1, 0, 0⟩| then ⟨0, 0, 1⟩ else ⟨1, 0, 0⟩

/-- The cross product the prototype then normalizes:
`normal = normalize(cross(tangent, ref))`. -/
def protoNormalCross (tangent : V3) : V3 := cross3 tangent (protoRefAxis tangent)

/-- Configuration of the TSL compute variant (`createGrassCompute`,
uniforms plus `uBladeRandomness`). -/
structure TslCfg where
  hMin : ℚ
  hMax : ℚ
  wMin : ℚ
  wMax : ℚ
  bMin : ℚ
  bMax : ℚ
  randX : ℚ
  randY : ℚ
  randZ : ℚ

/-- The simplified cell id of the TSL compute variant: the blade's own
`worldXZ` is used as the clump cell id. -/
def tslCellId (instancePos : V3) : V2 := ⟨instancePos.x, instancePos.z⟩

/-- The clump base parameters of the TSL compute variant:
`mix(min, max, hash)` per channel, keyed by the cell id. -/
def tslClumpBase (P : GlslPrims) (cfg : TslCfg) (cellId : V2) : ℚ × ℚ × ℚ :=
  let c1 := hash21 P ((11 : ℚ) • cellId)
  let c2 := hash21 P ((23 : ℚ) • cellId)
  (mixQ cfg.hMin cfg.hMax c1.x, mixQ cfg.wMin cfg.wMax c1.y, mixQ cfg.bMin cfg.bMax c2.x)

/-- The TSL `computeFn` body (part_002 lines 35–83): blade height, width,
bend and (constant) type written for one instance. -/
def tslComputeBlade (P : GlslPrims) (cfg : TslCfg) (instancePos : V3) : V4 :=
  let cellId := tslCellId instancePos
  let base := tslClumpBase P cfg cellId
  let clumpType : ℚ := 0.5
  let seed := tslCellId instancePos
  let h1 := hash21 P ((13 : ℚ) • seed)
  let h2 := hash21 P ((29 : ℚ) • seed)
  ⟨base.1 * mixQ (1 - cfg.randX) (1 + cfg.randX) h1.x,
   base.2.1 * mixQ (1 - cfg.randY) (1 + cfg.randY) h1.y,
   base.2.2 * mixQ (1 - cfg.randZ) (1 + cfg.randZ) h2.x,
   clumpType⟩

-- ===========================================================================
-- Concrete primitive models used by witnesses and counterexamples
-- ===========================================================================

/-- A trivial primitive model: every intrinsic returns 0.  It agrees with
the genuine intrinsics at the arguments where witnesses below evaluate
them (`sin 0 = 0`, `sqrt 0 = 0`, `atan(0, 1) = 0`), and the hash wrappers
keep their `[0, 1)` range for any model. -/
def P0 : GlslPrims :=
  ⟨fun _ => 0, fun _ => 0, fun _ _ => 0, fun _ => 0, fun _ => 0, fun _ _ => 0,
   fun _ _ _ => 0⟩

-- ===========================================================================
-- C10: the jitter seed depends only on x + z
-- ===========================================================================

/-- C10: the per-cell jitter seed `(x * 7919 + z * 7919) * 0.0001` depends
only on the sum `x + z`, so any two grid cells with equal coordinate sum —
in particular the transposed cells `(x, z)` and `(z, x)` — receive
identical `(jitterX, jitterZ)` offsets from the seeded jitter function. -/
theorem gridJitter_sum_symmetric (P : GlslPrims) (x z a b : ℕ)
    (h : x + z = a + b) : gridJitter P x z = gridJitter P a b := by
  have hc : ((x : ℚ) + (z : ℚ)) = ((a : ℚ) + (b : ℚ)) := by exact_mod_cast h
  have hs : gridSeed x z = gridSeed a b := by
    unfold gridSeed
    linear_combination (0.7919 : ℚ) * hc
  unfold gridJitter
  rw [hs]

theorem gridJitter_sum_symmetric_witness :
    1 + 2 = 2 + 1 ∧ gridJitter P0 1 2 = gridJitter P0 2 1 :=
  ⟨by decide, gridJitter_sum_symmetric P0 1 2 2 1 (by decide)⟩

-- ===========================================================================
-- C1: layout / position-texture index alignment
-- ===========================================================================

/-- C1: for every instance index `i < GRASS_BLADES`, the texel addressed
from `i` by the vertex shader (column `i mod GRID_SIZE`, row
`i / GRID_SIZE`) is backing-store entry `i` of the position texture, the
`instanceId` attribute at slot `i` is `i` itself, and the jittered world
position stored in that texel equals the `instanceOffset` generated for
instance `i`: both loops run x-outer / z-inner with `id = x * GRID_SIZE + z`
and share the seeded jitter, so parameter-buffer texel `i` and layout
position `i` describe the same blade. -/
theorem layout_texture_alignment (P : GlslPrims) (i : ℕ) (hi : i < GRASS_BLADES) :
    dataIndexOfTexel (texelOfId i) = i ∧
    createGrassGeometry_instanceIds.get? i = some i ∧
    ∃ px pz : ℚ,
      (createGrassGeometry_offsets P).get? i = some ⟨px, 0, pz⟩ ∧
      (createPositionTexture_data P).get? (dataIndexOfTexel (texelOfId i))
        = some ⟨px, 0, pz, 0⟩ := by
  have hgs : 0 < GRID_SIZE := by decide
  have hrt : i / GRID_SIZE * GRID_SIZE + i % GRID_SIZE = i := by
    show i / 256 * 256 + i % 256 = i
    omega
  have hidx : dataIndexOfTexel (texelOfId i) = i := by
    simpa [dataIndexOfTexel, texelOfId] using hrt
  refine ⟨hidx, ?_, ?_⟩
  · rw [createGrassGeometry_instanceIds,
      rowMajor_get? GRID_SIZE (fun x z => x * GRID_SIZE + z) hgs GRID_SIZE i hi]
    exact congrArg some hrt
  · refine ⟨(geomBody P (i / GRID_SIZE) (i % GRID_SIZE)).x,
      (geomBody P (i / GRID_SIZE) (i % GRID_SIZE)).z, ?_, ?_⟩
    · rw [createGrassGeometry_offsets, rowMajor_get? GRID_SIZE (geomBody P) hgs GRID_SIZE i hi]
      rfl
    · rw [hidx, createPositionTexture_data,
        rowMajor_get? GRID_SIZE (texBody P) hgs GRID_SIZE i hi]
      rfl

theorem layout_texture_alignment_witness :
    777 < GRASS_BLADES ∧
    (dataIndexOfTexel (texelOfId 777) = 777 ∧
     createGrassGeometry_instanceIds.get? 777 = some 777 ∧
     ∃ px pz : ℚ,
       (createGrassGeometry_offsets P0).get? 777 = some ⟨px, 0, pz⟩ ∧
       (createPositionTexture_data P0).get? (dataIndexOfTexel (texelOfId 777))
         = some ⟨px, 0, pz, 0⟩) :=
  ⟨by decide, layout_texture_alignment P0 777 (by decide)⟩

-- ===========================================================================
-- C3: presence falloff
-- ===========================================================================

theorem clampQ_mono {x y lo hi : ℚ} (h : x ≤ y) :
    clampQ x lo hi ≤ clampQ y lo hi :=
  min_le_min (max_le_max h le_rfl) le_rfl

theorem clampQ_mem {x lo hi : ℚ} (h : lo ≤ hi) :
    lo ≤ clampQ x lo hi ∧ clampQ x lo hi ≤ hi :=
  ⟨le_min (le_max_right x lo) h, min_le_right _ _⟩

theorem sstep_poly_mono {t1 t2 : ℚ} (h0 : 0 ≤ t1) (h : t1 ≤ t2) (h1 : t2 ≤ 1) :
    t1 * t1 * (3 - 2 * t1) ≤ t2 * t2 * (3 - 2 * t2) := by
  nlinarith [mul_nonneg (sub_nonneg.mpr h) (mul_nonneg h0 (by linarith : (0:ℚ) ≤ 1 - t1)),
    mul_nonneg (sub_nonneg.mpr h) (mul_nonneg (h0.trans h) (sub_nonneg.mpr h1)),
    mul_nonneg (sub_nonneg.mpr h)
      (mul_nonneg (by linarith : (0:ℚ) ≤ t1 + t2) (by linarith : (0:ℚ) ≤ 2 - t1 - t2))]

/-- C3: for every clump radius `clumpRadius > 0`, the presence value
`1 - smoothstep(0.7, 1.0, clamp(distance / clumpRadius, 0, 1))` is
non-increasing in the distance, lies in `[0, 1]` for every distance ≥ 0,
equals 1 at distance 0, and equals 0 for every distance ≥ `clumpRadius`. -/
theorem presence_spec (cr : ℚ) (hcr : 0 < cr) :
    (∀ d1 d2 : ℚ, d1 ≤ d2 → presenceOf cr d2 ≤ presenceOf cr d1) ∧
    (∀ d : ℚ, 0 ≤ d → 0 ≤ presenceOf cr d ∧ presenceOf cr d ≤ 1) ∧
    presenceOf cr 0 = 1 ∧
    (∀ d : ℚ, cr ≤ d → presenceOf cr d = 0) := by
  have hval : ∀ d : ℚ,
      presenceOf cr d =
        1 - (clampQ ((clampQ (d / cr) 0 1 - 0.7) / (1 - 0.7)) 0 1) *
            (clampQ ((clampQ (d / cr) 0 1 - 0.7) / (1 - 0.7)) 0 1) *
            (3 - 2 * clampQ ((clampQ (d / cr) 0 1 - 0.7) / (1 - 0.7)) 0 1) := by
    intro d; rfl
  have htmem : ∀ d : ℚ,
      0 ≤ clampQ ((clampQ (d / cr) 0 1 - 0.7) / (1 - 0.7)) 0 1 ∧
      clampQ ((clampQ (d / cr) 0 1 - 0.7) / (1 - 0.7)) 0 1 ≤ 1 := by
    intro d; exact clampQ_mem (by norm_num)
  refine ⟨?_, ?_, ?_, ?_⟩
  · intro d1 d2 h
    rw [hval d1, hval d2]
    have hr : clampQ (d1 / cr) 0 1 ≤ clampQ (d2 / cr) 0 1 :=
      clampQ_mono (by gcongr)
    have ht : clampQ ((clampQ (d1 / cr) 0 1 - 0.7) / (1 - 0.7)) 0 1
        ≤ clampQ ((clampQ (d2 / cr) 0 1 - 0.7) / (1 - 0.7)) 0 1 := by
      apply clampQ_mono
      gcongr
    have := sstep_poly_mono (htmem d1).1 ht (htmem d2).2
    linarith
  · intro d _
    rw [hval d]
    rcases htmem d with ⟨h0, h1⟩
    constructor
    · nlinarith [mul_nonneg (mul_nonneg h0 h0) (by linarith : (0:ℚ) ≤ 3 - 2 * clampQ ((clampQ (d / cr) 0 1 - 0.7) / (1 - 0.7)) 0 1),
        mul_nonneg (mul_nonneg (by linarith : (0:ℚ) ≤ 1 - clampQ ((clampQ (d / cr) 0 1 - 0.7) / (1 - 0.7)) 0 1) (by linarith : (0:ℚ) ≤ 1 - clampQ ((clampQ (d / cr) 0 1 - 0.7) / (1 - 0.7)) 0 1)) (by linarith : (0:ℚ) ≤ 1 + 2 * clampQ ((clampQ (d / cr) 0 1 - 0.7) / (1 - 0.7)) 0 1)]
    · nlinarith [mul_nonneg (mul_nonneg h0 h0) (by linarith : (0:ℚ) ≤ 3 - 2 * clampQ ((clampQ (d / cr) 0 1 - 0.7) / (1 - 0.7)) 0 1)]
  · have h0 : (0 : ℚ) / cr = 0 := zero_div cr
    rw [hval 0, h0]
    norm_num [clampQ]
  · intro d hd
    have h1 : (1 : ℚ) ≤ d / cr := (one_le_div hcr).mpr hd
    have hr : clampQ (d / cr) 0 1 = 1 := by
      unfold clampQ
      rw [max_eq_left (by linarith), min_eq_right h1]
    rw [hval d, hr]
    norm_num [clampQ]

theorem presence_spec_witness :
    (0 : ℚ) < 1 ∧
    ((∀ d1 d2 : ℚ, d1 ≤ d2 → presenceOf 1 d2 ≤ presenceOf 1 d1) ∧
     (∀ d : ℚ, 0 ≤ d → 0 ≤ presenceOf 1 d ∧ presenceOf 1 d ≤ 1) ∧
     presenceOf 1 0 = 1 ∧
     (∀ d : ℚ, 1 ≤ d → presenceOf 1 d = 0)) :=
  ⟨by norm_num, presence_spec 1 (by norm_num)⟩

-- ===========================================================================
-- C2: the clump locator
-- ===========================================================================

@[simp] theorem add_zero_v2 (v : V2) : v + (⟨0, 0⟩ : V2) = v := by
  show V2.mk _ _ = _
  simp

theorem seedD2_expand (P : GlslPrims) (cs : ℚ) (w : V2) (nc : V2) :
    seedD2 P cs w nc =
      ((clumpCell cs w).x - (nc.x + (hash2 P nc).x))
        * ((clumpCell cs w).x - (nc.x + (hash2 P nc).x))
      + ((clumpCell cs w).y - (nc.y + (hash2 P nc).y))
        * ((clumpCell cs w).y - (nc.y + (hash2 P nc).y)) := rfl

theorem fract_sub_bounds (a h : ℚ) (h0 : 0 ≤ h) (h1 : h < 1) :
    (a - ⌊a⌋ - h) * (a - ⌊a⌋ - h) < 1 := by
  have hf0 : (0 : ℚ) ≤ a - ⌊a⌋ := glslFract_nonneg a
  have hf1 : a - (⌊a⌋ : ℚ) < 1 := glslFract_lt_one a
  nlinarith

/-- C2: for every world position and every `clumpSize > 0`, `getClumpInfo`
selects its result from the 3×3 neighbourhood of the cell
`floor(worldXZ / clumpSize)`: there is an index `k` into the neighbour
scan order such that the returned cell id is the `k`-th neighbour, the
scan minimum is exactly the squared cell-space distance to that
neighbour's hashed seed, it is a minimum over all nine neighbours, every
strictly earlier neighbour is strictly farther (first-found wins on
ties), and — when the abstract square root is genuine on the minimum, as
it is for the concrete model of the witness — the returned distance is
nonnegative and its square equals the squared Euclidean world-space
distance from the position to the chosen seed point scaled into world
units.  Determinism is inherent: the embedding is a pure function of its
arguments. -/
theorem getClumpInfo_spec (P : GlslPrims) (cs : ℚ) (w : V2) (hcs : 0 < cs)
    (hsq : 0 ≤ P.sqrtf (getClumpInfoAux P cs w).1 ∧
      P.sqrtf (getClumpInfoAux P cs w).1 * P.sqrtf (getClumpInfoAux P cs w).1
        = (getClumpInfoAux P cs w).1) :
    ∃ k : ℕ, ∃ hk : k < clumpOffsets.length,
      (getClumpInfo P cs w).2 = clumpBaseCell cs w + clumpOffsets.get ⟨k, hk⟩ ∧
      (getClumpInfoAux P cs w).1 = seedD2 P cs w ((getClumpInfo P cs w).2) ∧
      (∀ o ∈ clumpOffsets,
        (getClumpInfoAux P cs w).1 ≤ seedD2 P cs w (clumpBaseCell cs w + o)) ∧
      (∀ m : ℕ, ∀ hm : m < clumpOffsets.length, m < k →
        (getClumpInfoAux P cs w).1
          < seedD2 P cs w (clumpBaseCell cs w + clumpOffsets.get ⟨m, hm⟩)) ∧
      0 ≤ (getClumpInfo P cs w).1 ∧
      (getClumpInfo P cs w).1 * (getClumpInfo P cs w).1
        = V2.dot (w - cs • ((getClumpInfo P cs w).2 + hash2 P ((getClumpInfo P cs w).2)))
                 (w - cs • ((getClumpInfo P cs w).2 + hash2 P ((getClumpInfo P cs w).2))) := by
  have haux : getClumpInfoAux P cs w =
      bestSeed (seedD2 P cs w) (1000000000, ⟨0, 0⟩)
        (clumpOffsets.map (fun o => clumpBaseCell cs w + o)) := rfl
  have hlen : (clumpOffsets.map (fun o => clumpBaseCell cs w + o)).length
      = clumpOffsets.length := List.length_map _ _
  rcases bestSeed_spec (seedD2 P cs w)
      (clumpOffsets.map (fun o => clumpBaseCell cs w + o)) (1000000000, ⟨0, 0⟩) with
    ⟨_, hall⟩ | ⟨k, hk, heq, _, hall, hfirst⟩
  · exfalso
    have hmem : clumpBaseCell cs w + (⟨0, 0⟩ : V2)
        ∈ clumpOffsets.map (fun o => clumpBaseCell cs w + o) :=
      List.mem_map_of_mem _ (by decide)
    have hge : (1000000000 : ℚ) ≤ seedD2 P cs w (clumpBaseCell cs w + (⟨0, 0⟩ : V2)) :=
      hall _ hmem
    have hlt2 : seedD2 P cs w (clumpBaseCell cs w + (⟨0, 0⟩ : V2)) < 2 := by
      rw [add_zero_v2, seedD2_expand]
      have hxb := fract_sub_bounds (clumpCell cs w).x (hash2 P (clumpBaseCell cs w)).x
        (glslFract_nonneg _) (glslFract_lt_one _)
      have hyb := fract_sub_bounds (clumpCell cs w).y (hash2 P (clumpBaseCell cs w)).y
        (glslFract_nonneg _) (glslFract_lt_one _)
      have hbx : (clumpBaseCell cs w).x = ((⌊(clumpCell cs w).x⌋ : ℤ) : ℚ) := rfl
      have hby : (clumpBaseCell cs w).y = ((⌊(clumpCell cs w).y⌋ : ℤ) : ℚ) := rfl
      rw [hbx, hby]
      nlinarith [hxb, hyb]
    linarith
  · have hget : (clumpOffsets.map (fun o => clumpBaseCell cs w + o)).get ⟨k, hk⟩
        = clumpBaseCell cs w + clumpOffsets.get ⟨k, hlen ▸ hk⟩ := by
      simp [List.get_map]
    refine ⟨k, hlen ▸ hk, ?_, ?_, ?_, ?_, ?_, ?_⟩
    · show (getClumpInfoAux P cs w).2 = _
      rw [haux, heq, hget]
    · show (getClumpInfoAux P cs w).1 = seedD2 P cs w (getClumpInfoAux P cs w).2
      conv_lhs => rw [haux, heq]
      rw [show (getClumpInfoAux P cs w).2
          = (clumpOffsets.map (fun o => clumpBaseCell cs w + o)).get ⟨k, hk⟩ by
        rw [haux, heq]]
    · intro o ho
      have : (getClumpInfoAux P cs w).1
          = seedD2 P cs w ((clumpOffsets.map (fun o => clumpBaseCell cs w + o)).get ⟨k, hk⟩) := by
        rw [haux, heq]
      rw [this]
      exact hall _ (List.mem_map_of_mem _ ho)
    · intro m hm hmk
      have hm2 : m < (clumpOffsets.map (fun o => clumpBaseCell cs w + o)).length := by
        rw [hlen]; exact hm
      have : (getClumpInfoAux P cs w).1
          = seedD2 P cs w ((clumpOffsets.map (fun o => clumpBaseCell cs w + o)).get ⟨k, hk⟩) := by
        rw [haux, heq]
      rw [this]
      have hmget : (clumpOffsets.map (fun o => clumpBaseCell cs w + o)).get ⟨m, hm2⟩
          = clumpBaseCell cs w + clumpOffsets.get ⟨m, hm⟩ := by
        simp [List.get_map]
      rw [← hmget]
      exact hfirst m hm2 hmk
    · show 0 ≤ P.sqrtf (getClumpInfoAux P cs w).1 * cs
      exact mul_nonneg hsq.1 hcs.le
    · show P.sqrtf (getClumpInfoAux P cs w).1 * cs * (P.sqrtf (getClumpInfoAux P cs w).1 * cs) = _
      have hd2 : (getClumpInfoAux P cs w).1
          = seedD2 P cs w ((getClumpInfoAux P cs w).2) := by
        conv_lhs => rw [haux, heq]
        rw [show (getClumpInfoAux P cs w).2
            = (clumpOffsets.map (fun o => clumpBaseCell cs w + o)).get ⟨k, hk⟩ by
          rw [haux, heq]]
      have hw : ∀ q : ℚ, w.x - cs * q = cs * (w.x / cs - q) := by
        intro q
        field_simp
      have hwy : ∀ q : ℚ, w.y - cs * q = cs * (w.y / cs - q) := by
        intro q
        field_simp
      show P.sqrtf (getClumpInfoAux P cs w).1 * cs * (P.sqrtf (getClumpInfoAux P cs w).1 * cs)
        = V2.dot (w - cs • ((getClumpInfoAux P cs w).2 + hash2 P ((getClumpInfoAux P cs w).2)))
                 (w - cs • ((getClumpInfoAux P cs w).2 + hash2 P ((getClumpInfoAux P cs w).2)))
      set bc := (getClumpInfoAux P cs w).2 with hbc
      have hexp : V2.dot (w - cs • (bc + hash2 P bc)) (w - cs • (bc + hash2 P bc))
          = cs * cs * seedD2 P cs w bc := by
        unfold seedD2
        show (w.x - cs * (bc.x + (hash2 P bc).x)) * (w.x - cs * (bc.x + (hash2 P bc).x))
            + (w.y - cs * (bc.y + (hash2 P bc).y)) * (w.y - cs * (bc.y + (hash2 P bc).y))
          = cs * cs * ((w.x / cs - (bc.x + (hash2 P bc).x)) * (w.x / cs - (bc.x + (hash2 P bc).x))
            + (w.y / cs - (bc.y + (hash2 P bc).y)) * (w.y / cs - (bc.y + (hash2 P bc).y)))
        rw [hw (bc.x + (hash2 P bc).x), hwy (bc.y + (hash2 P bc).y)]
        ring
      rw [hexp, ← hd2]
      nlinarith [hsq.2]

theorem v2_add_def (a b : V2) : a + b = ⟨a.x + b.x, a.y + b.y⟩ := rfl

theorem v2_sub_def (a b : V2) : a - b = ⟨a.x - b.x, a.y - b.y⟩ := rfl

theorem v2_smul_def (c : ℚ) (v : V2) : c • v = ⟨c * v.x, c * v.y⟩ := rfl

theorem v3_add_def (a b : V3) : a + b = ⟨a.x + b.x, a.y + b.y, a.z + b.z⟩ := rfl

theorem v3_sub_def (a b : V3) : a - b = ⟨a.x - b.x, a.y - b.y, a.z - b.z⟩ := rfl

theorem v3_smul_def (c : ℚ) (v : V3) : c • v = ⟨c * v.x, c * v.y, c * v.z⟩ := rfl

theorem v3_neg_def (v : V3) : -v = ⟨-v.x, -v.y, -v.z⟩ := rfl

theorem getClumpInfoAux_eval0 : getClumpInfoAux P0 1 (⟨0, 0⟩ : V2) = (0, ⟨0, 0⟩) := by
  norm_num [getClumpInfoAux, bestSeed, clumpOffsets, clumpBaseCell, clumpCell,
    V2.divScalar, seedD2, hash2, glslFract, V2.dot, P0, v2_add_def, v2_sub_def,
    List.foldl, List.map]

theorem getClumpInfo_spec_witness :
    (0 : ℚ) < 1 ∧
    (0 ≤ P0.sqrtf (getClumpInfoAux P0 1 ⟨0, 0⟩).1 ∧
      P0.sqrtf (getClumpInfoAux P0 1 ⟨0, 0⟩).1 * P0.sqrtf (getClumpInfoAux P0 1 ⟨0, 0⟩).1
        = (getClumpInfoAux P0 1 ⟨0, 0⟩).1) ∧
    (∃ k : ℕ, ∃ hk : k < clumpOffsets.length,
      (getClumpInfo P0 1 ⟨0, 0⟩).2 = clumpBaseCell 1 ⟨0, 0⟩ + clumpOffsets.get ⟨k, hk⟩ ∧
      (getClumpInfoAux P0 1 ⟨0, 0⟩).1 = seedD2 P0 1 ⟨0, 0⟩ ((getClumpInfo P0 1 ⟨0, 0⟩).2) ∧
      (∀ o ∈ clumpOffsets,
        (getClumpInfoAux P0 1 ⟨0, 0⟩).1 ≤ seedD2 P0 1 ⟨0, 0⟩ (clumpBaseCell 1 ⟨0, 0⟩ + o)) ∧
      (∀ m : ℕ, ∀ hm : m < clumpOffsets.length, m < k →
        (getClumpInfoAux P0 1 ⟨0, 0⟩).1
          < seedD2 P0 1 ⟨0, 0⟩ (clumpBaseCell 1 ⟨0, 0⟩ + clumpOffsets.get ⟨m, hm⟩)) ∧
      0 ≤ (getClumpInfo P0 1 ⟨0, 0⟩).1 ∧
      (getClumpInfo P0 1 ⟨0, 0⟩).1 * (getClumpInfo P0 1 ⟨0, 0⟩).1
        = V2.dot ((⟨0, 0⟩ : V2) - (1 : ℚ) •
              ((getClumpInfo P0 1 ⟨0, 0⟩).2 + hash2 P0 ((getClumpInfo P0 1 ⟨0, 0⟩).2)))
            ((⟨0, 0⟩ : V2) - (1 : ℚ) •
              ((getClumpInfo P0 1 ⟨0, 0⟩).2 + hash2 P0 ((getClumpInfo P0 1 ⟨0, 0⟩).2)))) :=
  ⟨by norm_num, by rw [getClumpInfoAux_eval0]; norm_num [P0],
   getClumpInfo_spec P0 1 ⟨0, 0⟩ (by norm_num)
     (by rw [getClumpInfoAux_eval0]; norm_num [P0])⟩

-- ===========================================================================
-- C9: parameter synthesis is a pure function of the fetched position
-- ===========================================================================

/-- C9: the parameter-buffer record — `(height, width, bend, type)` and
`(toCenter, presence, baseAngle)` — written at a texel is a pure function
of the world position fetched for that texel, the configuration and (for
this compute pass, which samples no clock) the time value: any two
instance texels whose fetched world XZ positions are equal receive
componentwise identical records under the same configuration.  There is
no other state in the embedding, mirroring the shader, which reads only
`uPositions` and its uniforms. -/
theorem record_purity (P : GlslPrims) (cfg : ComputeCfg) (i j : ℕ)
    (h : positionXZAt P i = positionXZAt P j) :
    recordAtTexel P cfg i = recordAtTexel P cfg j := by
  unfold recordAtTexel
  rw [h]

theorem record_purity_witness :
    positionXZAt P0 5 = positionXZAt P0 5 ∧
    recordAtTexel P0 ⟨0.6, 0.02, 0.4, 0.8, 1.5⟩ 5
      = recordAtTexel P0 ⟨0.6, 0.02, 0.4, 0.8, 1.5⟩ 5 :=
  ⟨rfl, record_purity P0 ⟨0.6, 0.02, 0.4, 0.8, 1.5⟩ 5 5 rfl⟩

-- ===========================================================================
-- C8: zero blade randomness collapses blades onto the clump base values
-- ===========================================================================

/-- C8: in the TSL compute variant, when `uBladeRandomness = {0, 0, 0}`,
the per-blade mixing factors `mix(1 - r, 1 + r, hash)` collapse to 1, so
every blade's derived height, width and bend equal the clump base values;
in particular any two blades belonging to the same clump (equal cell id —
in this variant the cell id is the blade's own `worldXZ`) receive
identical height, width, bend and type. -/
theorem tsl_zero_randomness (P : GlslPrims) (cfg : TslCfg)
    (hr : cfg.randX = 0 ∧ cfg.randY = 0 ∧ cfg.randZ = 0)
    (p q : V3) (hc : tslCellId p = tslCellId q) :
    tslComputeBlade P cfg p = tslComputeBlade P cfg q ∧
    tslComputeBlade P cfg p =
      ⟨(tslClumpBase P cfg (tslCellId p)).1,
       (tslClumpBase P cfg (tslCellId p)).2.1,
       (tslClumpBase P cfg (tslCellId p)).2.2, 0.5⟩ := by
  obtain ⟨hx, hy, hz⟩ := hr
  have hmix1 : ∀ h : ℚ, mixQ (1 - (0:ℚ)) (1 + 0) h = 1 := by
    intro h; unfold mixQ; ring
  have hcollapse : ∀ r : V3,
      tslComputeBlade P cfg r =
        ⟨(tslClumpBase P cfg (tslCellId r)).1,
         (tslClumpBase P cfg (tslCellId r)).2.1,
         (tslClumpBase P cfg (tslCellId r)).2.2, 0.5⟩ := by
    intro r
    simp only [tslComputeBlade, hx, hy, hz, hmix1, mul_one]
  exact ⟨by rw [hcollapse p, hcollapse q, hc], hcollapse p⟩

theorem tsl_zero_randomness_witness :
    ((⟨0.4, 0.8, 0.01, 0.05, 0.2, 0.6, 0, 0, 0⟩ : TslCfg).randX = 0 ∧
     (⟨0.4, 0.8, 0.01, 0.05, 0.2, 0.6, 0, 0, 0⟩ : TslCfg).randY = 0 ∧
     (⟨0.4, 0.8, 0.01, 0.05, 0.2, 0.6, 0, 0, 0⟩ : TslCfg).randZ = 0) ∧
    tslCellId ⟨2, 0, 3⟩ = tslCellId ⟨2, 7, 3⟩ ∧
    (tslComputeBlade P0 ⟨0.4, 0.8, 0.01, 0.05, 0.2, 0.6, 0, 0, 0⟩ ⟨2, 0, 3⟩
       = tslComputeBlade P0 ⟨0.4, 0.8, 0.01, 0.05, 0.2, 0.6, 0, 0, 0⟩ ⟨2, 7, 3⟩ ∧
     tslComputeBlade P0 ⟨0.4, 0.8, 0.01, 0.05, 0.2, 0.6, 0, 0, 0⟩ ⟨2, 0, 3⟩
       = ⟨(tslClumpBase P0 ⟨0.4, 0.8, 0.01, 0.05, 0.2, 0.6, 0, 0, 0⟩ (tslCellId ⟨2, 0, 3⟩)).1,
          (tslClumpBase P0 ⟨0.4, 0.8, 0.01, 0.05, 0.2, 0.6, 0, 0, 0⟩ (tslCellId ⟨2, 0, 3⟩)).2.1,
          (tslClumpBase P0 ⟨0.4, 0.8, 0.01, 0.05, 0.2, 0.6, 0, 0, 0⟩ (tslCellId ⟨2, 0, 3⟩)).2.2,
          0.5⟩) :=
  ⟨⟨rfl, rfl, rfl⟩, rfl,
   tsl_zero_randomness P0 ⟨0.4, 0.8, 0.01, 0.05, 0.2, 0.6, 0, 0, 0⟩ ⟨rfl, rfl, rfl⟩
     ⟨2, 0, 3⟩ ⟨2, 7, 3⟩ rfl⟩

-- ===========================================================================
-- C4: zero wind strength gives the unwound spine and a time-independent output
-- ===========================================================================

/-- C4: when `uWindStrength = 0`, the deformed spine equals the unwound
quadratic Bézier spine (no wind push, no sway), the resolved facing angle
`anglePre` equals the stored base angle, and the deformer's entire output
record is unchanged when the time uniform moves from any `τ1` to any `τ2`
(in particular from 0 to 10 seconds). -/
theorem wind_zero_deformer (P : GlslPrims) (M : ModelXf) (W : WindUniforms)
    (inp : DeformIn) (tex : BladeTexData) (h : W.uWindStrength = 0) (τ1 τ2 : ℚ) :
    (grassVertexMain P M { W with uTime := τ1 } inp tex).spine
      = bezier2 ⟨0, 0, 0⟩ (baseP1 tex.bladeType tex.height tex.bend)
          ⟨0, tex.height, 0⟩ inp.uvy ∧
    (grassVertexMain P M { W with uTime := τ1 } inp tex).anglePre = tex.baseAngle ∧
    grassVertexMain P M { W with uTime := τ1 } inp tex
      = grassVertexMain P M { W with uTime := τ2 } inp tex := by
  refine ⟨?_, ?_, ?_⟩ <;>
    simp [grassVertexMain, h, mixQ, mul_zero, zero_mul, sub_zero, add_zero,
      mul_one, zero_smul_v3, add_zero_v3]

def M0 : ModelXf := ⟨fun v => v, fun v => v⟩

def W4 : WindUniforms := ⟨0, 0.6, 0, 0.25, ⟨1, 0⟩⟩

def inp4 : DeformIn := ⟨0.5, 0.5, ⟨0, 0, 0⟩, ⟨0, 3, 10⟩, 0.02⟩

def tex4 : BladeTexData := ⟨⟨1, 0⟩, 1, 0.3, 0.6, 0.02, 0.4, 1⟩

theorem wind_zero_deformer_witness :
    W4.uWindStrength = 0 ∧
    ((grassVertexMain P0 M0 { W4 with uTime := (0 : ℚ) } inp4 tex4).spine
       = bezier2 ⟨0, 0, 0⟩ (baseP1 tex4.bladeType tex4.height tex4.bend)
           ⟨0, tex4.height, 0⟩ inp4.uvy ∧
     (grassVertexMain P0 M0 { W4 with uTime := (0 : ℚ) } inp4 tex4).anglePre
       = tex4.baseAngle ∧
     grassVertexMain P0 M0 { W4 with uTime := (0 : ℚ) } inp4 tex4
       = grassVertexMain P0 M0 { W4 with uTime := (10 : ℚ) } inp4 tex4) :=
  ⟨rfl, wind_zero_deformer P0 M0 W4 inp4 tex4 rfl 0 10⟩

-- ===========================================================================
-- C5: the combined facing angle is bounded but never normalized to [0, 2π)
-- ===========================================================================

theorem hash_off_bound (P : GlslPrims) (q c : ℚ) (hc : 0 ≤ c) :
    |(hash11 P q - 0.5) * c| ≤ 0.5 * c := by
  rw [abs_mul, abs_of_nonneg hc]
  have h1 : 0 ≤ hash11 P q := glslFract_nonneg _
  have h2 : hash11 P q < 1 := glslFract_lt_one _
  have h3 : |hash11 P q - 0.5| ≤ 0.5 := abs_le.mpr ⟨by linarith, by linarith⟩
  nlinarith

/-- C5 (amended): the base facing angle written by the compute pass is the
sum of the `atan` of the direction to the clump centre, a per-blade random
offset of magnitude below 0.6 and a clump yaw bias of magnitude below
0.125; whenever the `atan` primitive is bounded by `B` in magnitude (the
genuine `atan(y, x)` satisfies this with `B = π`), the combined angle has
magnitude at most `B + 0.725`.  No normalization into `[0, 2π)` is
performed anywhere, and the angle can in fact be negative (see the
counterexample). -/
theorem baseAngle_bounded (P : GlslPrims) (cfg : ComputeCfg) (w : V2) (B : ℚ)
    (hA : ∀ y x : ℚ, |P.atan2f y x| ≤ B) :
    |(computeMainRecord P cfg w).2.w| ≤ B + 0.725 := by
  have habs : ∀ a r c : ℚ, |a| ≤ B → |r| ≤ 0.6 → |c| ≤ 0.125 →
      |a + r + c| ≤ B + 0.725 := by
    intro a r c ha hr hc
    calc |a + r + c| ≤ |a + r| + |c| := abs_add _ _
      _ ≤ |a| + |r| + |c| := by linarith [abs_add a r]
      _ ≤ B + 0.725 := by linarith
  simp only [computeMainRecord]
  apply habs
  · exact hA _ _
  · exact le_trans (hash_off_bound P _ 1.2 (by norm_num)) (by norm_num)
  · exact le_trans (hash_off_bound P _ 0.25 (by norm_num)) (by norm_num)

def cfg0 : ComputeCfg := ⟨0.6, 0.02, 0.4, 1, 1.5⟩

theorem baseAngle_bounded_witness :
    (∀ y x : ℚ, |P0.atan2f y x| ≤ 4) ∧
    |(computeMainRecord P0 cfg0 ⟨0, 0⟩).2.w| ≤ 4 + 0.725 :=
  ⟨fun _ _ => by norm_num [P0],
   baseAngle_bounded P0 cfg0 ⟨0, 0⟩ 4 (fun _ _ => by norm_num [P0])⟩

/-- C5 (counterexample): at the world position `(0, 0)` with
`clumpSize = 1`, under a primitive model that agrees with the genuine
intrinsics at every point where they are evaluated on this input
(`sin 0 = 0`, `sqrt 0 = 0`, `atan(0, 1) = 0`), the base facing angle
written to the parameter buffer is `0 − 0.6 − 0.125 = −0.725 < 0`, so the
combined facing angle does not lie in `[0, 2π)`. -/
theorem baseAngle_negative_counterexample :
    (computeMainRecord P0 cfg0 ⟨0, 0⟩).2.w < 0 := by
  have haux := getClumpInfoAux_eval0
  simp only [computeMainRecord, getClumpInfo, cfg0, haux]
  norm_num [P0, safeDirNormalize, hash2, hash11, glslFract, V2.dot,
    v2_add_def, v2_sub_def, v2_smul_def]

-- ===========================================================================
-- C6: frame-construction fallback (prototype only; absent in the deformer)
-- ===========================================================================

/-- C6 (amended): only the early prototype vertex shader guards the frame
construction: it starts from the reference axis `(1, 0, 0)` and substitutes
the fallback `(0, 0, 1)` exactly when `abs(dot(tangent, ref)) > 0.95`, and
for every unit tangent the cross product it then normalizes has squared
magnitude at least `39/400`, never near zero.  The shipped deformer
(`grassVertex.glsl`) uses the fixed reference `(0, 0, 1)` with no test and
no fallback, and can normalize an exactly zero cross product (see the
counterexample). -/
theorem proto_fallback_spec (T : V3) (hT : V3.dot T T = 1) :
    (0.95 < |V3.dot T ⟨1, 0, 0⟩| → protoRefAxis T = ⟨0, 0, 1⟩) ∧
    39/400 ≤ V3.dot (protoNormalCross T) (protoNormalCross T) := by
  have hdot : V3.dot T ⟨1, 0, 0⟩ = T.x := by
    simp [V3.dot]
  have hT' : T.x * T.x + T.y * T.y + T.z * T.z = 1 := hT
  constructor
  · intro hp
    unfold protoRefAxis
    rw [if_pos hp]
  · unfold protoNormalCross protoRefAxis
    rcases lt_or_le 0.95 |V3.dot T ⟨1, 0, 0⟩| with hp | hp
    · rw [if_pos hp]
      rw [hdot] at hp
      have hx2 : (0.9025 : ℚ) < T.x * T.x := by
        nlinarith [abs_mul_abs_self T.x, abs_nonneg T.x]
      norm_num [cross3, V3.dot]
      nlinarith [sq_nonneg T.y]
    · rw [if_neg (not_lt.mpr hp)]
      rw [hdot] at hp
      have hx2 : T.x * T.x ≤ (0.9025 : ℚ) := by
        nlinarith [abs_mul_abs_self T.x, abs_nonneg T.x]
      norm_num [cross3, V3.dot]
      nlinarith [hT', hx2]

theorem proto_fallback_spec_witness :
    V3.dot ⟨1, 0, 0⟩ ⟨1, 0, 0⟩ = 1 ∧
    ((0.95 < |V3.dot (⟨1, 0, 0⟩ : V3) ⟨1, 0, 0⟩| → protoRefAxis ⟨1, 0, 0⟩ = ⟨0, 0, 1⟩) ∧
     39/400 ≤ V3.dot (protoNormalCross ⟨1, 0, 0⟩) (protoNormalCross ⟨1, 0, 0⟩)) :=
  ⟨by norm_num [V3.dot], proto_fallback_spec ⟨1, 0, 0⟩ (by norm_num [V3.dot])⟩

/-- A primitive model for the frame-degeneracy counterexamples: it agrees
with the genuine intrinsics at every point where they are evaluated on
those inputs (`sin 0 = 0`, `cos 0 = 1`, `sqrt 0 = 0`, `sqrt 1.96 = 1.4`,
`atan(0, 1) = 0`). -/
def P6 : GlslPrims :=
  ⟨fun _ => 0, fun _ => 1, fun _ _ => 0,
   fun q => if q = 1.96 then 1.4 else 0, fun _ => 0, fun _ _ => 0,
   fun _ _ _ => 0⟩

def W6 : WindUniforms := ⟨0, 0, 0, 0, ⟨1, 0⟩⟩

def inp6 : DeformIn := ⟨0.5, 0, ⟨0, 0, 0⟩, ⟨0, 1, 5⟩, 0.02⟩

def tex6 : BladeTexData := ⟨⟨1, 0⟩, 1, 0, 0, 0.02, 1, 0⟩

/-- C6 (counterexample): in the shipped deformer, for the blade
parameters `height = 0`, `bend = 1`, `type = 0` at the root vertex
(`t = 0`) with zero wind, the curve tangent evaluates to exactly
`(0, 0, 1)` — parallel to the fixed reference axis `(0, 0, 1)` — and the
side vector is the normalization of the zero cross product, yielding the
zero vector: no fallback reference axis is substituted. -/
theorem frame_degenerate_counterexample :
    (grassVertexMain P6 M0 W6 inp6 tex6).tangentLocal = ⟨0, 0, 1⟩ ∧
    (grassVertexMain P6 M0 W6 inp6 tex6).sideLocal = ⟨0, 0, 0⟩ := by
  constructor <;>
    norm_num [grassVertexMain, vnormalize, bezier2Tangent, baseP1, sampleWind,
      mixQ, hash11, glslFract, cross3, V3.dot, V2.dot, v3_add_def, v3_sub_def,
      v3_smul_def, P6, W6, inp6, tex6]

-- ===========================================================================
-- C7: normalization guards (two guarded, the curve tangent unguarded)
-- ===========================================================================

/-- C7 (amended): of the three normalizations the spec names, two are
guarded: the direction-to-clump-centre normalization substitutes the
fixed unit vector `(1, 0)` whenever the computed length is not above
`1e-5`, and the variant deformer's `safeNormalize` substitutes `(1, 0)`
whenever the squared magnitude is not above `1e-6`; but the curve-tangent
normalization in `grassVertex.glsl` is a bare `normalize` with no guard —
on a zero tangent it normalizes the zero vector (a division by zero in
GLSL, the zero vector in this total model) instead of substituting a
default unit vector (see the counterexample). -/
theorem normalize_guards (P : GlslPrims) :
    (∀ d : V2, P.sqrtf (V2.dot d d) ≤ 0.00001 → safeDirNormalize P d = ⟨1, 0⟩) ∧
    (∀ v : V2, V2.dot v v ≤ 0.000001 → safeNormalize P v = ⟨1, 0⟩) ∧
    vnormalize P ⟨0, 0, 0⟩ = ⟨0, 0, 0⟩ := by
  refine ⟨?_, ?_, ?_⟩
  · intro d hd
    unfold safeDirNormalize
    rw [if_neg (not_lt.mpr hd)]
  · intro v hv
    unfold safeNormalize
    rw [if_neg (not_lt.mpr hv)]
  · unfold vnormalize
    rw [v3_smul_def]
    norm_num

theorem normalize_guards_witness :
    (P0.sqrtf (V2.dot ⟨0, 0⟩ ⟨0, 0⟩) ≤ 0.00001 ∧ safeDirNormalize P0 ⟨0, 0⟩ = ⟨1, 0⟩) ∧
    (V2.dot ⟨0, 0⟩ ⟨0, 0⟩ ≤ 0.000001 ∧ safeNormalize P0 ⟨0, 0⟩ = ⟨1, 0⟩) ∧
    vnormalize P0 ⟨0, 0, 0⟩ = ⟨0, 0, 0⟩ :=
  ⟨⟨by norm_num [P0, V2.dot], (normalize_guards P0).1 ⟨0, 0⟩ (by norm_num [P0, V2.dot])⟩,
   ⟨by norm_num [V2.dot], (normalize_guards P0).2.1 ⟨0, 0⟩ (by norm_num [V2.dot])⟩,
   (normalize_guards P0).2.2⟩

def tex7 : BladeTexData := ⟨⟨1, 0⟩, 1, 0, 0, 0.02, 0, 0⟩

/-- C7 (counterexample): in the shipped deformer, for the blade
parameters `height = 0`, `bend = 0` at the root vertex with zero wind,
the curve tangent being normalized is the zero vector; the result is the
zero vector, not a substituted fixed default unit vector — the
curve-tangent normalization has no zero-length guard. -/
theorem tangent_unguarded_counterexample :
    (grassVertexMain P6 M0 W6 inp6 tex7).tangentLocal = ⟨0, 0, 0⟩ ∧
    V3.dot (grassVertexMain P6 M0 W6 inp6 tex7).tangentLocal
      (grassVertexMain P6 M0 W6 inp6 tex7).tangentLocal ≠ 1 := by
  have h : (grassVertexMain P6 M0 W6 inp6 tex7).tangentLocal = ⟨0, 0, 0⟩ := by
    norm_num [grassVertexMain, vnormalize, bezier2Tangent, baseP1, sampleWind,
      mixQ, hash11, glslFract, cross3, V3.dot, V2.dot, v3_add_def, v3_sub_def,
      v3_smul_def, P6, W6, inp6, tex7]
  refine ⟨h, ?_⟩
  rw [h]
  norm_num [V3.dot]
